import Mathlib

/-
Verification development for the newsletter backend.

The embedding below follows the publish / subscribe / unsubscribe handlers of
the fuller source variant (src/unnamed/part_000), the one that implements
failed-recipient tracking, the header-or-body publish secret, the full email
format check, and the "1"/"true" sendFull coercion.  JavaScript string
truthiness, `||` defaulting, `trim`, `toLowerCase` and `encodeURIComponent`
are modelled explicitly; machine effects (Mongo, SMTP) are modelled as pure
state passing plus an event trace, with the mail transport abstracted as an
outcome oracle on the recipient address (the `safeSend` never-throws
contract).
-/

namespace Newsletter

/-- JavaScript truthiness of a possibly-absent string value: `undefined`
(modelled as `none`) and the empty string are falsy. -/
def truthy : Option String → Bool
  | none => false
  | some s => !(s == "")

/-- JavaScript `a || b` on possibly-absent string values: the first operand
when truthy, otherwise the second operand unchanged. -/
def jsOr (a b : Option String) : Option String :=
  if truthy a then a else b

/-- JavaScript `a || d` where the fallback `d` is a plain string literal, so
the result is a plain string. -/
def jsOrD (a : Option String) (d : String) : String :=
  if truthy a then a.getD "" else d

/-- JavaScript `a || d` on plain strings (the empty string is falsy). -/
def strOr (a d : String) : String :=
  if a == "" then d else a

/-- JavaScript `String.prototype.trim`: strip whitespace from both ends. -/
def jsTrim (s : String) : String :=
  ⟨((s.data.dropWhile Char.isWhitespace).reverse.dropWhile Char.isWhitespace).reverse⟩

/-- JavaScript `String.prototype.toLowerCase` (ASCII range). -/
def jsToLower (s : String) : String :=
  ⟨s.data.map Char.toLower⟩

/-- Model of the source helper `normEmail`:
`e => String(e).trim().toLowerCase()`. -/
def normEmail (e : String) : String :=
  jsToLower (jsTrim e)

/-- JavaScript `s.includes(c)` for a single character. -/
def strHas (s : String) (c : Char) : Bool :=
  s.data.contains c

/-- The subscribe-side email format check of the source (accepting side):
`email.includes('@') && email.includes('.') && email.length >= 5`. -/
def validEmailFormat (email : String) : Bool :=
  strHas email '@' && strHas email '.' && decide (5 ≤ email.data.length)

/-- Whether the first character list is a prefix of the second. -/
def listPrefixB : List Char → List Char → Bool
  | [], _ => true
  | _ :: _, [] => false
  | a :: as, b :: bs => a == b && listPrefixB as bs

/-- Whether the first character list occurs as a contiguous segment of the
second. -/
def listInfixB (n : List Char) : List Char → Bool
  | [] => listPrefixB n []
  | b :: bs => listPrefixB n (b :: bs) || listInfixB n bs

/-- `containsStr h n` holds when `n` occurs as a contiguous substring of the
string `h`. -/
def containsStr (h n : String) : Bool :=
  listInfixB n.data h.data

/-- Uppercase hexadecimal digit, as used by `encodeURIComponent`. -/
def hexDigit (n : Nat) : Char :=
  if n < 10 then Char.ofNat (48 + n) else Char.ofNat (55 + n)

/-- Percent-encoding of one byte. -/
def pctByte (b : Nat) : List Char :=
  [Char.ofNat 37, hexDigit (b / 16), hexDigit (b % 16)]

/-- UTF-8 bytes of one code point. -/
def utf8Bytes (c : Char) : List Nat :=
  let n := c.toNat
  if n < 128 then [n]
  else if n < 2048 then [192 + n / 64, 128 + n % 64]
  else if n < 65536 then [224 + n / 4096, 128 + (n / 64) % 64, 128 + n % 64]
  else [240 + n / 262144, 128 + (n / 4096) % 64, 128 + (n / 64) % 64, 128 + n % 64]

/-- Characters `encodeURIComponent` leaves unescaped:
alphanumerics and `- _ . ! ~ * ' ( )`. -/
def uriUnreserved (c : Char) : Bool :=
  c.isAlpha || c.isDigit ||
    c ∈ ['-', '_', '.', '!', '~', '*', Char.ofNat 39, '(', ')']

/-- Model of JavaScript `encodeURIComponent`. -/
def encodeURIComponent (s : String) : String :=
  ⟨(s.data.map (fun c =>
      if uriUnreserved c then [c] else ((utf8Bytes c).map pctByte).flatten)).flatten⟩

/-- Configured environment values read at startup (`process.env.*`). -/
structure Config where
  fromEmail : String
  fromName : String
  adminEmail : String
  publishSecret : String
deriving DecidableEq, Repr

/-- One subscriber record (the `Subscriber` Mongo model, keyed by email). -/
structure Subscriber where
  email : String
  name : String
deriving DecidableEq, Repr

/-- One stored post (the `Post` Mongo model).  `publishedAt` is an abstract
timestamp. -/
structure Post where
  title : String
  excerpt : String
  content : String
  postUrl : String
  attachmentUrl : Option String
  attachmentName : Option String
  sendFull : Bool
  publishedAt : Nat
deriving DecidableEq, Repr

/-- One outbound mail handed to `safeSend`.  `toAddr` models the mail
option `to` (a reserved token here). -/
structure Mail where
  toAddr : String
  subject : String
  html : String
deriving DecidableEq, Repr

/-- Model of `Subscriber.findOne({ email })`: first record with the key. -/
def findOne (store : List Subscriber) (email : String) : Option Subscriber :=
  store.find? (fun s => s.email == email)

/-- Model of `Subscriber.deleteOne({ email })`: removes at most one record,
returning the deleted count and the remaining store. -/
def deleteOne (email : String) : List Subscriber → Nat × List Subscriber
  | [] => (0, [])
  | s :: rest =>
    if s.email == email then (1, rest)
    else
      let r := deleteOne email rest
      (r.1, s :: r.2)

/-- Response shape of `POST /subscribe`. -/
structure SubscribeResponse where
  status : Nat
  success : Bool
  message : String
  alreadySubscribed : Bool
  newSubscriber : Bool
deriving DecidableEq, Repr

/-- The welcome mail body of the subscribe handler, with the source's
interpolations (`name || 'there'`, `FROM_NAME`, `FROM_EMAIL`). -/
def welcomeHtml (cfg : Config) (nm : String) : String :=
  "
    <!DOCTYPE html>
    <html>
    <body style=\"margin:0;background:#f4f6f8;font-family:Arial,sans-serif;\">
      <table width=\"100%\" cellpadding=\"0\" cellspacing=\"0\">
        <tr>
          <td align=\"center\" style=\"padding:30px;\">
            <table width=\"600\" style=\"background:#ffffff;padding:30px;border-radius:6px;\">
              <tr>
                <td>
                  <h2 style=\"color:#222;\">Welcome, " ++ strOr nm "there" ++ " 👋</h2>
                  <p style=\"color:#444;font-size:15px;line-height:1.6;\">
                    Thanks for subscribing to <strong>" ++ cfg.fromName ++ "</strong>.
                  </p>
                  <p style=\"color:#444;font-size:15px;line-height:1.6;\">
                    You\x27ll receive updates whenever we publish something new.
                  </p>
                  <hr style=\"margin:25px 0;\">
                  <p style=\"font-size:13px;color:#777;\">
                    — " ++ cfg.fromName ++ "<br>
                    " ++ cfg.fromEmail ++ "
                  </p>
                </td>
              </tr>
            </table>
          </td>
        </tr>
      </table>
    </body>
    </html>
    "

/-- The admin notification mail body of the subscribe handler.  `nowStr`
stands for `new Date().toLocaleString()` and `total` for the post-insert
`Subscriber.countDocuments()`. -/
def adminNewSubscriberHtml (nowStr email nm : String) (total : Nat) : String :=
  "
    <!DOCTYPE html>
    <html>
    <body style=\"font-family:Arial,sans-serif;background:#f4f6f8;padding:20px;\">
      <div style=\"max-width:600px;background:#fff;padding:20px;border-radius:6px;\">
        <h3>New Subscriber</h3>
        <p><strong>Email:</strong> " ++ email ++ "</p>
        <p><strong>Name:</strong> " ++ strOr nm "-" ++ "</p>
        <p><strong>Time:</strong> " ++ nowStr ++ "</p>
        <p><strong>Total subscribers:</strong> " ++ toString total ++ "</p>
      </div>
    </body>
    </html>
    "

/-- The subscribe handler's reject condition, verbatim:
`!email.includes('@') || !email.includes('.') || email.length < 5`. -/
def subscribeRejectCond (email : String) : Bool :=
  !(strHas email '@') || !(strHas email '.') || decide (email.data.length < 5)

/-- Model of the `POST /subscribe` handler: format check on the normalized
email, duplicate lookup, insert, then welcome and admin mails.  Returns the
response, the updated store and the mails handed to the sender. -/
def subscribeHandler (cfg : Config) (nowStr : String)
    (bodyEmail bodyName : Option String) (store : List Subscriber) :
    SubscribeResponse × List Subscriber × List Mail :=
  let email := normEmail (jsOrD bodyEmail "")
  let nm := jsOrD bodyName ""
  if subscribeRejectCond email then
    (⟨400, false, "Invalid email format", false, false⟩, store, [])
  else
    match findOne store email with
    | some _ =>
      (⟨200, false, "This email is already subscribed", true, false⟩, store, [])
    | none =>
      let store2 := store ++ [⟨email, nm⟩]
      let wm : Mail := ⟨email, "Welcome to our updates", welcomeHtml cfg nm⟩
      let am : Mail := ⟨cfg.adminEmail, "New Subscriber Joined",
        adminNewSubscriberHtml nowStr email nm store2.length⟩
      (⟨200, true, "Subscribed successfully", false, true⟩, store2, [wm, am])

/-- Response shape of `POST /unsubscribe`.  `removed` models the source's
`unsubscribed: true` flag (true exactly when `deletedCount` is nonzero). -/
structure UnsubscribeResponse where
  success : Bool
  message : String
  removed : Bool
deriving DecidableEq, Repr

/-- Model of the `POST /unsubscribe` handler: normalize, delete by key,
always answer success-shaped. -/
def unsubscribeHandler (bodyEmail : Option String) (store : List Subscriber) :
    UnsubscribeResponse × List Subscriber :=
  let email := normEmail (jsOrD bodyEmail "")
  let r := deleteOne email store
  if r.1 == 0 then
    (⟨true, "Email was not subscribed", false⟩, r.2)
  else
    (⟨true, "Unsubscribed successfully", true⟩, r.2)

/-- The uploaded file seen by the handler (`req.file`): the stored disk name
and the original client name. -/
structure FileInfo where
  filename : String
  originalname : String
deriving DecidableEq, Repr

/-- Inputs of one `POST /publish` call. -/
structure PublishReq where
  headerSecret : Option String
  bodySecret : Option String
  title : Option String
  excerpt : Option String
  postUrl : Option String
  content : Option String
  sendFull : Option String
  file : Option FileInfo
  protocol : String
  host : String
deriving DecidableEq, Repr

/-- The durable state the publish handler touches: both stores. -/
structure PubState where
  subscribers : List Subscriber
  posts : List Post
deriving DecidableEq, Repr

/-- Trace of externally visible effects of one publish call, in program
order. -/
inductive Event where
  | postCreated (p : Post)
  | sendAttempt (m : Mail) (ok : Bool)
  | adminNotify (m : Mail) (ok : Bool)
deriving DecidableEq, Repr

/-- Response shape of `POST /publish`. -/
structure PublishResponse where
  status : Nat
  success : Bool
  sentSubscribers : Nat
  sentTotal : Nat
  sentFailed : Nat
  postId : Nat
  attachmentUrl : Option String
  failedEmails : List String
  message : String
deriving DecidableEq, Repr

/-- The per-recipient unsubscribe link of the notification mail. -/
def unsubscribeLink (protocol host subscriberEmail : String) : String :=
  protocol ++ "://" ++ host ++ "/unsubscribe?email=" ++ encodeURIComponent subscriberEmail

/-- The conditional teaser block of the notification template:
`(sendFull !== '1' && sendFull !== 'true') && excerpt && content ? ... : ''`. -/
def teaserBlock (sendFull excerpt content : Option String) : String :=
  if (!(sendFull == some "1") && !(sendFull == some "true")) &&
      truthy excerpt && truthy content then
    "<div style=\"margin:20px 0;padding:15px;background:#f8f9fa;border-radius:8px;\">
                  <p style=\"margin:0;font-style:italic;\">Full article available at the link below...</p>
                </div>"
  else ""

/-- The conditional attachment block of the notification template. -/
def attachmentBlock (attachmentUrl attachmentName : Option String) : String :=
  if truthy attachmentUrl then
    "<div style=\"margin-top:20px;padding:15px;background:#f8f9fa;border-radius:8px;\">
                  <p style=\"margin:0 0 10px 0;\"><strong>Attachment:</strong></p>
                  <a href=\"" ++ attachmentUrl.getD "" ++ "\"
                     style=\"color:#3498db;text-decoration:none;font-size:14px;\">
                    📎 " ++ jsOrD attachmentName "Download attached file" ++ "
                  </a>
                </div>"
  else ""

/-- The notification template up to (and excluding) the interpolated
`emailBody`. -/
def publishHtmlPre (cfg : Config) (title : String) : String :=
  "
<!DOCTYPE html>
<html lang=\"en\">
<head>
  <meta charset=\"UTF-8\">
  <title>" ++ title ++ "</title>
</head>
<body style=\"margin:0;padding:0;background:#f5f7fb;font-family:Inter,Segoe UI,Arial,sans-serif;\">
  <table width=\"100%\" cellpadding=\"0\" cellspacing=\"0\">
    <tr>
      <td align=\"center\" style=\"padding:32px 16px;\">
        <table width=\"600\" cellpadding=\"0\" cellspacing=\"0\"
          style=\"background:#ffffff;border-radius:10px;box-shadow:0 10px 30px rgba(0,0,0,0.08);overflow:hidden;\">

          <!\x2d\x2d Header \x2d\x2d>
          <tr>
            <td style=\"background:#2c3e50;padding:20px 24px;color:#ffffff;\">
              <h2 style=\"margin:0;font-size:20px;\">
                " ++ cfg.fromName ++ " · New Post
              </h2>
            </td>
          </tr>

          <!\x2d\x2d Content \x2d\x2d>
          <tr>
            <td style=\"padding:24px;color:#222;\">
              <h1 style=\"margin-top:0;font-size:22px;\">
                " ++ title ++ "
              </h1>

              <div style=\"font-size:15px;line-height:1.7;color:#333;\">
                "

/-- The notification template after the interpolated `emailBody`. -/
def publishHtmlPost (cfg : Config) (year : Nat) (postUrl : String)
    (sendFull excerpt content attachmentUrl attachmentName : Option String)
    (unsubLink : String) : String :=
  "
              </div>

              " ++ teaserBlock sendFull excerpt content ++ "

              <p style=\"margin-top:20px;\">
                <a href=\"" ++ postUrl ++ "\"
                   style=\"display:inline-block;background:#3498db;color:#fff;
                          padding:10px 16px;border-radius:999px;
                          text-decoration:none;font-size:14px;\">
                  Read full article →
                </a>
              </p>

              " ++ attachmentBlock attachmentUrl attachmentName ++ "
            </td>
          </tr>

          <!\x2d\x2d Footer \x2d\x2d>
          <tr>
            <td style=\"background:#fafafa;padding:18px 24px;font-size:12px;color:#777;\">
              <p style=\"margin:0;\">
                You are receiving this email because you subscribed to
                <strong>" ++ cfg.fromName ++ "</strong>.
              </p>
              <p style=\"margin:6px 0 0 0;\">
                <a href=\"" ++ unsubLink ++ "\" style=\"color:#777;text-decoration:underline;\">
                  Unsubscribe
                </a> |
                © " ++ toString year ++ " " ++ cfg.fromName ++ "
              </p>
            </td>
          </tr>

        </table>
      </td>
    </tr>
  </table>
</body>
</html>
      "

/-- The full rendered notification body (`publishHtml` in the source). -/
def publishHtml (cfg : Config) (year : Nat) (title emailBody postUrl : String)
    (sendFull excerpt content attachmentUrl attachmentName : Option String)
    (unsubLink : String) : String :=
  publishHtmlPre cfg title ++
    (emailBody ++
      publishHtmlPost cfg year postUrl sendFull excerpt content
        attachmentUrl attachmentName unsubLink)

/-- The admin notification body sent after the fan-out loop. -/
def adminPublishHtml (nowStr title postUrl : String)
    (sentCount failedCount total : Nat)
    (attachmentUrl attachmentName : Option String)
    (failedEmails : List String) : String :=
  "
    <!DOCTYPE html>
    <html>
    <body style=\"font-family:Arial,sans-serif;background:#f4f6f8;padding:20px;\">
      <div style=\"max-width:600px;background:#fff;padding:20px;border-radius:6px;\">
        <h3>Post Published Successfully</h3>
        <p><strong>Title:</strong> " ++ title ++ "</p>
        <p><strong>Sent to:</strong> " ++ toString sentCount ++ " subscribers</p>
        <p><strong>Failed to send:</strong> " ++ toString failedCount ++ "</p>
        <p><strong>Total subscribers:</strong> " ++ toString total ++ "</p>
        <p><strong>Time:</strong> " ++ nowStr ++ "</p>
        " ++ (if truthy attachmentUrl then
                "<p><strong>Attachment:</strong> " ++ attachmentName.getD "null" ++
                  " (" ++ attachmentUrl.getD "" ++ ")</p>"
              else "") ++ "
        <p><strong>Post URL:</strong> " ++ postUrl ++ "</p>
        " ++ (if 0 < failedEmails.length then
                "<p><strong>Failed emails:</strong> " ++
                  String.intercalate ", " failedEmails ++ "</p>"
              else "") ++ "
      </div>
    </body>
    </html>
    "

/-- The fan-out loop of the publish handler: one send attempt per subscriber,
in list order.  Returns the sent counter, the failed-recipient list (in
encounter order) and the per-send trace.  `sendOk` is the Mail Sender's
outcome for a recipient address (`safeSend` never throws). -/
def fanOut (sendOk : String → Bool) (mkMail : Subscriber → Mail) :
    List Subscriber → Nat × List String × List Event
  | [] => (0, [], [])
  | s :: rest =>
    let ok := sendOk s.email
    let r := fanOut sendOk mkMail rest
    (if ok then r.1 + 1 else r.1,
     if ok then r.2.1 else s.email :: r.2.1,
     Event.sendAttempt (mkMail s) ok :: r.2.2)

/-- The attachment URL built from `req.file` (reachable upload URL). -/
def attachmentUrlOf (req : PublishReq) : Option String :=
  req.file.map fun f => req.protocol ++ "://" ++ req.host ++ "/uploads/" ++ f.filename

/-- The attachment display name built from `req.file`. -/
def attachmentNameOf (req : PublishReq) : Option String :=
  req.file.map fun f => f.originalname

/-- The source's `sendFull === '1' || sendFull === 'true'` coercion. -/
def sendFullCoerce (sendFull : Option String) : Bool :=
  sendFull == some "1" || sendFull == some "true"

/-- The Post record built by `Post.create` in the publish handler. -/
def madePost (req : PublishReq) (now : Nat) : Post :=
  ⟨req.title.getD "", jsOrD req.excerpt "", jsOrD req.content "", req.postUrl.getD "",
   attachmentUrlOf req, attachmentNameOf req, sendFullCoerce req.sendFull, now⟩

/-- The source's `emailBody`:
`sendFull coerced ? (content || excerpt || '') : (excerpt || '')`. -/
def emailBodyOf (req : PublishReq) : String :=
  if sendFullCoerce req.sendFull then jsOrD req.content (jsOrD req.excerpt "")
  else jsOrD req.excerpt ""

/-- The notification mail built for one subscriber inside the fan-out
loop. -/
def notificationMail (cfg : Config) (req : PublishReq) (year : Nat)
    (s : Subscriber) : Mail :=
  ⟨s.email, req.title.getD "",
    publishHtml cfg year (req.title.getD "") (emailBodyOf req) (req.postUrl.getD "")
      req.sendFull req.excerpt req.content (attachmentUrlOf req) (attachmentNameOf req)
      (unsubscribeLink req.protocol req.host s.email)⟩

/-- The admin summary mail sent after the fan-out loop. -/
def adminPublishMail (cfg : Config) (req : PublishReq) (nowStr : String)
    (sentCount : Nat) (failedEmails : List String) (total : Nat) : Mail :=
  ⟨cfg.adminEmail, "Post Published: " ++ req.title.getD "",
    adminPublishHtml nowStr (req.title.getD "") (req.postUrl.getD "") sentCount
      failedEmails.length total (attachmentUrlOf req) (attachmentNameOf req)
      failedEmails⟩

/-- The body of the publish handler past both early-return checks:
subscriber snapshot, post persistence, sequential fan-out, admin
notification, summary response. -/
def publishCore (cfg : Config) (req : PublishReq) (now year : Nat)
    (nowStr : String) (sendOk : String → Bool) (st : PubState) :
    PublishResponse × PubState × List Event :=
  let subs := st.subscribers
  let post := madePost req now
  let fo := fanOut sendOk (notificationMail cfg req year) subs
  let sentCount := fo.1
  let failedEmails := fo.2.1
  (⟨200, true, sentCount, subs.length, failedEmails.length, st.posts.length,
    attachmentUrlOf req, failedEmails,
    "Published successfully to " ++ toString sentCount ++ " out of " ++
      toString subs.length ++ " subscribers"⟩,
   ⟨st.subscribers, st.posts ++ [post]⟩,
   Event.postCreated post ::
     fo.2.2 ++
       [Event.adminNotify
         (adminPublishMail cfg req nowStr sentCount failedEmails subs.length)
         (sendOk cfg.adminEmail)])

/-- Model of the `POST /publish` handler: secret check (header or body
field), required-field check, then the main body `publishCore`. -/
def publishHandler (cfg : Config) (req : PublishReq) (now year : Nat)
    (nowStr : String) (sendOk : String → Bool) (st : PubState) :
    PublishResponse × PubState × List Event :=
  let secret := jsOr req.headerSecret req.bodySecret
  if secret ≠ some cfg.publishSecret then
    (⟨401, false, 0, 0, 0, 0, none, [], "Invalid secret"⟩, st, [])
  else if !(truthy req.title) || !(truthy req.postUrl) then
    (⟨400, false, 0, 0, 0, 0, none, [], "Title and post URL are required"⟩, st, [])
  else
    publishCore cfg req now year nowStr sendOk st

/-- Recipient addresses of the send attempts in a trace, in order. -/
def attemptedRecipients : List Event → List String
  | [] => []
  | Event.sendAttempt m _ :: rest => m.toAddr :: attemptedRecipients rest
  | Event.postCreated _ :: rest => attemptedRecipients rest
  | Event.adminNotify _ _ :: rest => attemptedRecipients rest

/-- A publish call passes the secret check: the header value, or the body
field when the header is falsy, equals the configured secret. -/
abbrev Authorized (cfg : Config) (req : PublishReq) : Prop :=
  jsOr req.headerSecret req.bodySecret = some cfg.publishSecret

/-- A publish call passes the required-field check: `title` and `postUrl`
are present and truthy. -/
abbrev ValidFields (req : PublishReq) : Prop :=
  (truthy req.title && truthy req.postUrl) = true

/-- Store invariant maintained by the subscribe handler: every stored key
passed the format check.  (Records are only created after the check, on the
normalized email.) -/
abbrev WellFormedStore (store : List Subscriber) : Prop :=
  ∀ s ∈ store, validEmailFormat s.email = true

/-- Store invariant enforced by the unique index on `email`: keys are
pairwise distinct. -/
abbrev UniqueKeys (store : List Subscriber) : Prop :=
  (store.map fun s => s.email).Nodup

theorem listPrefixB_self_append (n b : List Char) : listPrefixB n (n ++ b) = true := by
  induction n with
  | nil => rfl
  | cons a as ih => simp [listPrefixB, ih]

theorem listInfixB_of_listPrefixB (n l : List Char) (h : listPrefixB n l = true) :
    listInfixB n l = true := by
  cases l with
  | nil => simpa [listInfixB] using h
  | cons b bs => simp [listInfixB, h]

theorem listInfixB_append_left (n : List Char) (a : List Char) (rest : List Char)
    (h : listInfixB n rest = true) : listInfixB n (a ++ rest) = true := by
  induction a with
  | nil => simpa using h
  | cons x xs ih => simp [listInfixB, ih]

theorem containsStr_of_append (a n b : String) : containsStr (a ++ (n ++ b)) n = true := by
  unfold containsStr
  rw [String.data_append, String.data_append]
  exact listInfixB_append_left _ _ _
    (listInfixB_of_listPrefixB _ _ (listPrefixB_self_append n.data b.data))

theorem length_filter_add_length_not {α : Type} (p : α → Bool) (l : List α) :
    (l.filter p).length + (l.filter fun a => !(p a)).length = l.length := by
  induction l with
  | nil => rfl
  | cons x xs ih =>
    cases h : p x <;> simp [List.filter_cons, h] <;> omega

theorem fanOut_sent (sendOk : String → Bool) (mkMail : Subscriber → Mail)
    (subs : List Subscriber) :
    (fanOut sendOk mkMail subs).1 = (subs.filter fun s => sendOk s.email).length := by
  induction subs with
  | nil => rfl
  | cons s rest ih =>
    cases h : sendOk s.email <;> simp [fanOut, List.filter_cons, h, ih]

theorem fanOut_failed (sendOk : String → Bool) (mkMail : Subscriber → Mail)
    (subs : List Subscriber) :
    (fanOut sendOk mkMail subs).2.1 =
      (subs.filter fun s => !(sendOk s.email)).map fun s => s.email := by
  induction subs with
  | nil => rfl
  | cons s rest ih =>
    cases h : sendOk s.email <;> simp [fanOut, List.filter_cons, h, ih]

theorem fanOut_trace (sendOk : String → Bool) (mkMail : Subscriber → Mail)
    (subs : List Subscriber) :
    (fanOut sendOk mkMail subs).2.2 =
      subs.map fun s => Event.sendAttempt (mkMail s) (sendOk s.email) := by
  induction subs with
  | nil => rfl
  | cons s rest ih => simp [fanOut, ih]

theorem attemptedRecipients_append (a b : List Event) :
    attemptedRecipients (a ++ b) = attemptedRecipients a ++ attemptedRecipients b := by
  induction a with
  | nil => rfl
  | cons e rest ih => cases e <;> simp [attemptedRecipients, ih]

theorem attemptedRecipients_sendAttempts (mkMail : Subscriber → Mail)
    (ok : Subscriber → Bool) (subs : List Subscriber) :
    attemptedRecipients (subs.map fun s => Event.sendAttempt (mkMail s) (ok s)) =
      subs.map fun s => (mkMail s).toAddr := by
  induction subs with
  | nil => rfl
  | cons s rest ih => simp [attemptedRecipients, ih]

theorem publishHandler_unauthorized (cfg : Config) (req : PublishReq)
    (now year : Nat) (nowStr : String) (sendOk : String → Bool) (st : PubState)
    (h : ¬ Authorized cfg req) :
    publishHandler cfg req now year nowStr sendOk st =
      (⟨401, false, 0, 0, 0, 0, none, [], "Invalid secret"⟩, st, []) := by
  simp [publishHandler, h]

theorem publishHandler_invalid_fields (cfg : Config) (req : PublishReq)
    (now year : Nat) (nowStr : String) (sendOk : String → Bool) (st : PubState)
    (hA : Authorized cfg req) (hV : ¬ ValidFields req) :
    publishHandler cfg req now year nowStr sendOk st =
      (⟨400, false, 0, 0, 0, 0, none, [], "Title and post URL are required"⟩, st, []) := by
  have hc : (!(truthy req.title) || !(truthy req.postUrl)) = true := by
    cases h1 : truthy req.title <;> cases h2 : truthy req.postUrl <;>
      simp_all [ValidFields]
  simp [publishHandler, hA, hc]

theorem publishHandler_success (cfg : Config) (req : PublishReq)
    (now year : Nat) (nowStr : String) (sendOk : String → Bool) (st : PubState)
    (hA : Authorized cfg req) (hV : ValidFields req) :
    publishHandler cfg req now year nowStr sendOk st =
      publishCore cfg req now year nowStr sendOk st := by
  have h1 : truthy req.title = true := by
    have := hV
    simp [ValidFields, Bool.and_eq_true] at this
    exact this.1
  have h2 : truthy req.postUrl = true := by
    have := hV
    simp [ValidFields, Bool.and_eq_true] at this
    exact this.2
  simp [publishHandler, hA, h1, h2]

/-- C10: every publish call, whatever its outcome (rejected, succeeded, or
with failing sends), leaves the Subscriber store unchanged: the publish
handler only reads the subscriber snapshot. -/
theorem publish_preserves_subscribers (cfg : Config) (req : PublishReq)
    (now year : Nat) (nowStr : String) (sendOk : String → Bool) (st : PubState) :
    (publishHandler cfg req now year nowStr sendOk st).2.1.subscribers =
      st.subscribers := by
  by_cases hA : Authorized cfg req
  · by_cases hV : ValidFields req
    · rw [publishHandler_success cfg req now year nowStr sendOk st hA hV]
      rfl
    · rw [publishHandler_invalid_fields cfg req now year nowStr sendOk st hA hV]
  · rw [publishHandler_unauthorized cfg req now year nowStr sendOk st hA]

/-- C4: a publish call is authorized iff the supplied secret — the header
value, or the body field when the header is falsy — equals the configured
publish secret; on mismatch the call short-circuits as 401 Unauthorized with
unchanged state and no events. -/
theorem publish_authorized_iff_secret_matches (cfg : Config) (req : PublishReq)
    (now year : Nat) (nowStr : String) (sendOk : String → Bool) (st : PubState) :
    ((publishHandler cfg req now year nowStr sendOk st).1.status ≠ 401 ↔
      jsOr req.headerSecret req.bodySecret = some cfg.publishSecret) ∧
    (jsOr req.headerSecret req.bodySecret ≠ some cfg.publishSecret →
      (publishHandler cfg req now year nowStr sendOk st).1.status = 401 ∧
      (publishHandler cfg req now year nowStr sendOk st).2.1 = st ∧
      (publishHandler cfg req now year nowStr sendOk st).2.2 = []) := by
  by_cases hA : Authorized cfg req
  · refine ⟨⟨fun _ => hA, fun _ => ?_⟩, fun hn => absurd hA hn⟩
    by_cases hV : ValidFields req
    · rw [publishHandler_success cfg req now year nowStr sendOk st hA hV]
      simp [publishCore]
    · rw [publishHandler_invalid_fields cfg req now year nowStr sendOk st hA hV]
      simp
  · rw [publishHandler_unauthorized cfg req now year nowStr sendOk st hA]
    exact ⟨⟨fun hs => absurd rfl hs, fun h => absurd h hA⟩, fun _ => ⟨rfl, rfl, rfl⟩⟩

/-- Witness for C4: a concrete call whose header secret is wrong is a 401
with unchanged state and no events, and a matching body-field secret
authorizes. -/
theorem publish_authorized_iff_secret_matches_witness :
    ((publishHandler ⟨"from@x", "Ada", "admin@x", "s3cret"⟩
        ⟨some "wrong", none, some "Hello", none, some "https://x/1", none, none, none,
          "http", "h"⟩ 0 2026 "t" (fun _ => true)
        ⟨[⟨"a@x.com", "A"⟩], []⟩).1.status = 401 ∧
      (publishHandler ⟨"from@x", "Ada", "admin@x", "s3cret"⟩
        ⟨some "wrong", none, some "Hello", none, some "https://x/1", none, none, none,
          "http", "h"⟩ 0 2026 "t" (fun _ => true)
        ⟨[⟨"a@x.com", "A"⟩], []⟩).2.2 = []) ∧
    ((publishHandler ⟨"from@x", "Ada", "admin@x", "s3cret"⟩
        ⟨none, some "s3cret", some "Hello", none, some "https://x/1", none, none, none,
          "http", "h"⟩ 0 2026 "t" (fun _ => true)
        ⟨[], []⟩).1.status ≠ 401) := by
  constructor
  · have h := (publish_authorized_iff_secret_matches ⟨"from@x", "Ada", "admin@x", "s3cret"⟩
      ⟨some "wrong", none, some "Hello", none, some "https://x/1", none, none, none,
        "http", "h"⟩ 0 2026 "t" (fun _ => true) ⟨[⟨"a@x.com", "A"⟩], []⟩).2 (by decide)
    exact ⟨h.1, h.2.2⟩
  · exact (publish_authorized_iff_secret_matches ⟨"from@x", "Ada", "admin@x", "s3cret"⟩
      ⟨none, some "s3cret", some "Hello", none, some "https://x/1", none, none, none,
        "http", "h"⟩ 0 2026 "t" (fun _ => true) ⟨[], []⟩).1.mpr (by decide)

/-- C3: every publish call rejected for a wrong secret or a missing title or
postUrl creates zero Post records and sends zero emails: the state is
unchanged and the event trace is empty, whatever the other fields. -/
theorem publish_rejected_creates_nothing (cfg : Config) (req : PublishReq)
    (now year : Nat) (nowStr : String) (sendOk : String → Bool) (st : PubState)
    (h : ¬ Authorized cfg req ∨ ¬ ValidFields req) :
    (publishHandler cfg req now year nowStr sendOk st).1.success = false ∧
    (publishHandler cfg req now year nowStr sendOk st).2.1 = st ∧
    (publishHandler cfg req now year nowStr sendOk st).2.2 = [] := by
  by_cases hA : Authorized cfg req
  · have hV : ¬ ValidFields req := by
      rcases h with h | h
      · exact absurd hA h
      · exact h
    rw [publishHandler_invalid_fields cfg req now year nowStr sendOk st hA hV]
    exact ⟨rfl, rfl, rfl⟩
  · rw [publishHandler_unauthorized cfg req now year nowStr sendOk st hA]
    exact ⟨rfl, rfl, rfl⟩

/-- Witness for C3: a concrete publish call with a wrong secret but otherwise
valid fields mutates nothing and emits no events. -/
theorem publish_rejected_creates_nothing_witness :
    (¬ Authorized ⟨"from@x", "Ada", "admin@x", "s3cret"⟩
        ⟨some "wrong", none, some "Hello", none, some "https://x/1", none, none, none,
          "http", "h"⟩ ∨
      ¬ ValidFields ⟨some "wrong", none, some "Hello", none, some "https://x/1", none,
          none, none, "http", "h"⟩) ∧
    (publishHandler ⟨"from@x", "Ada", "admin@x", "s3cret"⟩
        ⟨some "wrong", none, some "Hello", none, some "https://x/1", none, none, none,
          "http", "h"⟩ 0 2026 "t" (fun _ => true)
        ⟨[⟨"a@x.com", "A"⟩], []⟩).2.1 = ⟨[⟨"a@x.com", "A"⟩], []⟩ ∧
    (publishHandler ⟨"from@x", "Ada", "admin@x", "s3cret"⟩
        ⟨some "wrong", none, some "Hello", none, some "https://x/1", none, none, none,
          "http", "h"⟩ 0 2026 "t" (fun _ => true)
        ⟨[⟨"a@x.com", "A"⟩], []⟩).2.2 = [] := by
  have h := publish_rejected_creates_nothing ⟨"from@x", "Ada", "admin@x", "s3cret"⟩
    ⟨some "wrong", none, some "Hello", none, some "https://x/1", none, none, none,
      "http", "h"⟩ 0 2026 "t" (fun _ => true) ⟨[⟨"a@x.com", "A"⟩], []⟩
    (Or.inl (by decide))
  exact ⟨Or.inl (by decide), h.2.1, h.2.2⟩

/-- C1: during publish fan-out, for every subscriber list and every
per-recipient outcome, each recipient is attempted exactly once, in list
order; a failed send does not abort the loop and is not retried, the failed
recipient's email is appended to the failed list, `sentCount` plus the
failed list's length equals the snapshot's size, and the call reports
overall success. -/
theorem publish_fanout_attempts_and_failures (cfg : Config) (req : PublishReq)
    (now year : Nat) (nowStr : String) (sendOk : String → Bool) (st : PubState)
    (hA : Authorized cfg req) (hV : ValidFields req) :
    attemptedRecipients (publishHandler cfg req now year nowStr sendOk st).2.2 =
        st.subscribers.map (fun s => s.email) ∧
    (publishHandler cfg req now year nowStr sendOk st).1.sentSubscribers =
        (st.subscribers.filter fun s => sendOk s.email).length ∧
    (publishHandler cfg req now year nowStr sendOk st).1.failedEmails =
        ((st.subscribers.filter fun s => !(sendOk s.email)).map fun s => s.email) ∧
    (publishHandler cfg req now year nowStr sendOk st).1.sentSubscribers +
        (publishHandler cfg req now year nowStr sendOk st).1.failedEmails.length =
      st.subscribers.length ∧
    (publishHandler cfg req now year nowStr sendOk st).1.success = true := by
  rw [publishHandler_success cfg req now year nowStr sendOk st hA hV]
  refine ⟨?_, ?_, ?_, ?_, rfl⟩
  · show attemptedRecipients
        (Event.postCreated (madePost req now) ::
          (fanOut sendOk (notificationMail cfg req year) st.subscribers).2.2 ++
            [Event.adminNotify _ (sendOk cfg.adminEmail)]) = _
    rw [fanOut_trace]
    simp [attemptedRecipients, attemptedRecipients_append,
      attemptedRecipients_sendAttempts, notificationMail]
  · show (fanOut sendOk (notificationMail cfg req year) st.subscribers).1 = _
    exact fanOut_sent _ _ _
  · show (fanOut sendOk (notificationMail cfg req year) st.subscribers).2.1 = _
    exact fanOut_failed _ _ _
  · show (fanOut sendOk (notificationMail cfg req year) st.subscribers).1 +
        (fanOut sendOk (notificationMail cfg req year) st.subscribers).2.1.length =
      st.subscribers.length
    rw [fanOut_sent, fanOut_failed, List.length_map]
    exact length_filter_add_length_not _ _


/-- Witness for C1: the spec scenario — a valid secret, `title="Hello"`,
`postUrl="https://x/1"`, 3 subscribers, the sender stubbed to fail exactly
for `b@x.com` — yields `sentCount = 2`, a failed list `["b@x.com"]`, each of
the 3 recipients attempted once in order, and overall success. -/
theorem publish_fanout_attempts_and_failures_witness :
    Authorized ⟨"from@x", "Ada", "admin@x", "s3cret"⟩
      ⟨some "s3cret", none, some "Hello", none, some "https://x/1", none, none, none,
        "http", "h"⟩ ∧
    ValidFields ⟨some "s3cret", none, some "Hello", none, some "https://x/1", none,
      none, none, "http", "h"⟩ ∧
    attemptedRecipients (publishHandler ⟨"from@x", "Ada", "admin@x", "s3cret"⟩
        ⟨some "s3cret", none, some "Hello", none, some "https://x/1", none, none, none,
          "http", "h"⟩ 0 2026 "t" (fun e => !(e == "b@x.com"))
        ⟨[⟨"a@x.com", "A"⟩, ⟨"b@x.com", "B"⟩, ⟨"c@x.com", "C"⟩], []⟩).2.2 =
      ["a@x.com", "b@x.com", "c@x.com"] ∧
    (publishHandler ⟨"from@x", "Ada", "admin@x", "s3cret"⟩
        ⟨some "s3cret", none, some "Hello", none, some "https://x/1", none, none, none,
          "http", "h"⟩ 0 2026 "t" (fun e => !(e == "b@x.com"))
        ⟨[⟨"a@x.com", "A"⟩, ⟨"b@x.com", "B"⟩, ⟨"c@x.com", "C"⟩], []⟩).1.sentSubscribers = 2 ∧
    (publishHandler ⟨"from@x", "Ada", "admin@x", "s3cret"⟩
        ⟨some "s3cret", none, some "Hello", none, some "https://x/1", none, none, none,
          "http", "h"⟩ 0 2026 "t" (fun e => !(e == "b@x.com"))
        ⟨[⟨"a@x.com", "A"⟩, ⟨"b@x.com", "B"⟩, ⟨"c@x.com", "C"⟩], []⟩).1.failedEmails =
      ["b@x.com"] ∧
    (publishHandler ⟨"from@x", "Ada", "admin@x", "s3cret"⟩
        ⟨some "s3cret", none, some "Hello", none, some "https://x/1", none, none, none,
          "http", "h"⟩ 0 2026 "t" (fun e => !(e == "b@x.com"))
        ⟨[⟨"a@x.com", "A"⟩, ⟨"b@x.com", "B"⟩, ⟨"c@x.com", "C"⟩], []⟩).1.success = true := by
  have h := publish_fanout_attempts_and_failures ⟨"from@x", "Ada", "admin@x", "s3cret"⟩
    ⟨some "s3cret", none, some "Hello", none, some "https://x/1", none, none, none,
      "http", "h"⟩ 0 2026 "t" (fun e => !(e == "b@x.com"))
    ⟨[⟨"a@x.com", "A"⟩, ⟨"b@x.com", "B"⟩, ⟨"c@x.com", "C"⟩], []⟩ (by decide) (by decide)
  refine ⟨by decide, by decide, ?_, ?_, ?_, h.2.2.2.2⟩
  · rw [h.1]; decide
  · rw [h.2.1]; decide
  · rw [h.2.2.1]; decide

/-- C2: in every authorized, valid publish call the Post record is persisted
before any notification email is sent (the `postCreated` event heads the
trace), and the call reports overall success whatever the per-recipient
outcomes — in particular even when every send fails. -/
theorem publish_persists_before_sends_and_reports_success (cfg : Config)
    (req : PublishReq) (now year : Nat) (nowStr : String) (sendOk : String → Bool)
    (st : PubState) (hA : Authorized cfg req) (hV : ValidFields req) :
    ∃ p rest,
      (publishHandler cfg req now year nowStr sendOk st).2.2 =
          Event.postCreated p :: rest ∧
      (publishHandler cfg req now year nowStr sendOk st).2.1.posts =
          st.posts ++ [p] ∧
      (publishHandler cfg req now year nowStr sendOk st).1.success = true ∧
      (publishHandler cfg req now year nowStr sendOk st).1.status = 200 := by
  rw [publishHandler_success cfg req now year nowStr sendOk st hA hV]
  exact ⟨madePost req now, _, rfl, rfl, rfl, rfl⟩

/-- Witness for C2: a concrete call whose sender fails for every recipient
still persists the post first and reports success with zero sends. -/
theorem publish_persists_before_sends_and_reports_success_witness :
    Authorized ⟨"from@x", "Ada", "admin@x", "s3cret"⟩
      ⟨some "s3cret", none, some "Hello", none, some "https://x/1", none, none, none,
        "http", "h"⟩ ∧
    ValidFields ⟨some "s3cret", none, some "Hello", none, some "https://x/1", none,
      none, none, "http", "h"⟩ ∧
    (∃ p rest,
      (publishHandler ⟨"from@x", "Ada", "admin@x", "s3cret"⟩
          ⟨some "s3cret", none, some "Hello", none, some "https://x/1", none, none, none,
            "http", "h"⟩ 0 2026 "t" (fun _ => false)
          ⟨[⟨"a@x.com", "A"⟩, ⟨"b@x.com", "B"⟩], []⟩).2.2 =
          Event.postCreated p :: rest ∧
      (publishHandler ⟨"from@x", "Ada", "admin@x", "s3cret"⟩
          ⟨some "s3cret", none, some "Hello", none, some "https://x/1", none, none, none,
            "http", "h"⟩ 0 2026 "t" (fun _ => false)
          ⟨[⟨"a@x.com", "A"⟩, ⟨"b@x.com", "B"⟩], []⟩).2.1.posts = [] ++ [p] ∧
      (publishHandler ⟨"from@x", "Ada", "admin@x", "s3cret"⟩
          ⟨some "s3cret", none, some "Hello", none, some "https://x/1", none, none, none,
            "http", "h"⟩ 0 2026 "t" (fun _ => false)
          ⟨[⟨"a@x.com", "A"⟩, ⟨"b@x.com", "B"⟩], []⟩).1.success = true ∧
      (publishHandler ⟨"from@x", "Ada", "admin@x", "s3cret"⟩
          ⟨some "s3cret", none, some "Hello", none, some "https://x/1", none, none, none,
            "http", "h"⟩ 0 2026 "t" (fun _ => false)
          ⟨[⟨"a@x.com", "A"⟩, ⟨"b@x.com", "B"⟩], []⟩).1.status = 200) ∧
    (publishHandler ⟨"from@x", "Ada", "admin@x", "s3cret"⟩
        ⟨some "s3cret", none, some "Hello", none, some "https://x/1", none, none, none,
          "http", "h"⟩ 0 2026 "t" (fun _ => false)
        ⟨[⟨"a@x.com", "A"⟩, ⟨"b@x.com", "B"⟩], []⟩).1.sentSubscribers = 0 := by
  refine ⟨by decide, by decide, ?_, by decide⟩
  exact publish_persists_before_sends_and_reports_success
    ⟨"from@x", "Ada", "admin@x", "s3cret"⟩
    ⟨some "s3cret", none, some "Hello", none, some "https://x/1", none, none, none,
      "http", "h"⟩ 0 2026 "t" (fun _ => false)
    ⟨[⟨"a@x.com", "A"⟩, ⟨"b@x.com", "B"⟩], []⟩ (by decide) (by decide)

/-- C5: a successful publish call appends exactly one Post record built from
the validated inputs; its `sendFull` field is true exactly when the
boolean-like input is the string "1" or the string "true", and its
`publishedAt` is the call time. -/
theorem publish_post_record_fields (cfg : Config) (req : PublishReq)
    (now year : Nat) (nowStr : String) (sendOk : String → Bool) (st : PubState)
    (hA : Authorized cfg req) (hV : ValidFields req) :
    (publishHandler cfg req now year nowStr sendOk st).2.1.posts =
        st.posts ++ [madePost req now] ∧
    ((madePost req now).sendFull = true ↔
      (req.sendFull = some "1" ∨ req.sendFull = some "true")) ∧
    (madePost req now).publishedAt = now ∧
    (madePost req now).title = req.title.getD "" ∧
    (madePost req now).excerpt = jsOrD req.excerpt "" ∧
    (madePost req now).content = jsOrD req.content "" ∧
    (madePost req now).postUrl = req.postUrl.getD "" := by
  refine ⟨?_, ?_, rfl, rfl, rfl, rfl, rfl⟩
  · rw [publishHandler_success cfg req now year nowStr sendOk st hA hV]
    rfl
  · simp [madePost, sendFullCoerce]

/-- Witness for C5: a concrete call with `sendFull="true"` stores one post
with `sendFull = true` and the given `publishedAt`. -/
theorem publish_post_record_fields_witness :
    Authorized ⟨"from@x", "Ada", "admin@x", "s3cret"⟩
      ⟨some "s3cret", none, some "Hello", none, some "https://x/1", none, some "true",
        none, "http", "h"⟩ ∧
    ValidFields ⟨some "s3cret", none, some "Hello", none, some "https://x/1", none,
      some "true", none, "http", "h"⟩ ∧
    (publishHandler ⟨"from@x", "Ada", "admin@x", "s3cret"⟩
        ⟨some "s3cret", none, some "Hello", none, some "https://x/1", none, some "true",
          none, "http", "h"⟩ 7 2026 "t" (fun _ => true) ⟨[], []⟩).2.1.posts =
      [] ++ [madePost ⟨some "s3cret", none, some "Hello", none, some "https://x/1",
        none, some "true", none, "http", "h"⟩ 7] ∧
    (madePost ⟨some "s3cret", none, some "Hello", none, some "https://x/1", none,
        some "true", none, "http", "h"⟩ 7).sendFull = true ∧
    (madePost ⟨some "s3cret", none, some "Hello", none, some "https://x/1", none,
        some "true", none, "http", "h"⟩ 7).publishedAt = 7 := by
  have h := publish_post_record_fields ⟨"from@x", "Ada", "admin@x", "s3cret"⟩
    ⟨some "s3cret", none, some "Hello", none, some "https://x/1", none, some "true",
      none, "http", "h"⟩ 7 2026 "t" (fun _ => true) ⟨[], []⟩ (by decide) (by decide)
  exact ⟨by decide, by decide, h.1, h.2.1.mpr (Or.inr rfl), h.2.2.1⟩

theorem decide_lt_five (l : Nat) : decide (l < 5) = !(decide (5 ≤ l)) := by
  by_cases h : l < 5
  · have h2 : ¬ (5 ≤ l) := by omega
    simp [h, h2]
  · have h2 : 5 ≤ l := by omega
    simp [h, h2]

theorem subscribeRejectCond_eq (e : String) :
    subscribeRejectCond e = !(validEmailFormat e) := by
  rw [subscribeRejectCond, validEmailFormat, decide_lt_five]
  cases hA : strHas e '@' <;> cases hB : strHas e '.' <;>
    cases hC : decide (5 ≤ e.data.length) <;> rfl

/-- C7: subscribe rejects an input email as Invalid (HTTP 400), with no
store mutation and no email send, exactly when the normalized email fails
the minimal syntactic check: contains `@` and `.` and has length at least
5. -/
theorem subscribe_invalid_iff_format_check (cfg : Config) (nowStr : String)
    (bodyEmail bodyName : Option String) (store : List Subscriber) :
    ((subscribeHandler cfg nowStr bodyEmail bodyName store).1.status = 400 ↔
      validEmailFormat (normEmail (jsOrD bodyEmail "")) = false) ∧
    (validEmailFormat (normEmail (jsOrD bodyEmail "")) = false →
      (subscribeHandler cfg nowStr bodyEmail bodyName store).1.success = false ∧
      (subscribeHandler cfg nowStr bodyEmail bodyName store).2.1 = store ∧
      (subscribeHandler cfg nowStr bodyEmail bodyName store).2.2 = []) := by
  by_cases hv : validEmailFormat (normEmail (jsOrD bodyEmail "")) = true
  · have hc : subscribeRejectCond (normEmail (jsOrD bodyEmail "")) = false := by
      rw [subscribeRejectCond_eq, hv]
      rfl
    constructor
    · constructor
      · intro h400
        rcases hf : findOne store (normEmail (jsOrD bodyEmail "")) with _ | r
        · simp [subscribeHandler, hc, hf] at h400
        · simp [subscribeHandler, hc, hf] at h400
      · intro hfalse
        rw [hv] at hfalse
        cases hfalse
    · intro hfalse
      rw [hv] at hfalse
      cases hfalse
  · have hvf : validEmailFormat (normEmail (jsOrD bodyEmail "")) = false := by
      cases h : validEmailFormat (normEmail (jsOrD bodyEmail ""))
      · rfl
      · exact absurd h hv
    have hc : subscribeRejectCond (normEmail (jsOrD bodyEmail "")) = true := by
      rw [subscribeRejectCond_eq, hvf]
      rfl
    refine ⟨⟨fun _ => hvf, fun _ => ?_⟩, fun _ => ⟨?_, ?_, ?_⟩⟩ <;>
      simp [subscribeHandler, hc]

/-- Witness for C7: the concrete email `"a@b"` (no dot, length 3) is
rejected with status 400, no mutation and no mails; `"a@b.com"` is not
rejected. -/
theorem subscribe_invalid_iff_format_check_witness :
    validEmailFormat (normEmail (jsOrD (some "a@b") "")) = false ∧
    (subscribeHandler ⟨"f@x", "Ada", "adm@x", "s"⟩ "t" (some "a@b") none
        [⟨"q@w.com", "Q"⟩]).1.status = 400 ∧
    (subscribeHandler ⟨"f@x", "Ada", "adm@x", "s"⟩ "t" (some "a@b") none
        [⟨"q@w.com", "Q"⟩]).2.1 = [⟨"q@w.com", "Q"⟩] ∧
    (subscribeHandler ⟨"f@x", "Ada", "adm@x", "s"⟩ "t" (some "a@b") none
        [⟨"q@w.com", "Q"⟩]).2.2 = [] ∧
    ¬ (subscribeHandler ⟨"f@x", "Ada", "adm@x", "s"⟩ "t" (some "a@b.com") none
        [⟨"q@w.com", "Q"⟩]).1.status = 400 := by
  have h := subscribe_invalid_iff_format_check ⟨"f@x", "Ada", "adm@x", "s"⟩ "t"
    (some "a@b") none [⟨"q@w.com", "Q"⟩]
  have h2 := subscribe_invalid_iff_format_check ⟨"f@x", "Ada", "adm@x", "s"⟩ "t"
    (some "a@b.com") none [⟨"q@w.com", "Q"⟩]
  refine ⟨by decide, h.1.mpr (by decide), (h.2 (by decide)).2.1,
    (h.2 (by decide)).2.2, fun hq => ?_⟩
  have hr := h2.1.mp hq
  rw [show validEmailFormat (normEmail (jsOrD (some "a@b.com") "")) = true from by decide]
    at hr
  cases hr

theorem findOne_eq_key (email : String) :
    ∀ store r, findOne store email = some r → r.email = email := by
  intro store
  induction store with
  | nil => intro r h; cases h
  | cons s rest ih =>
    intro r h
    have h2 : List.find? (fun x => x.email == email) (s :: rest) = some r := h
    cases hs : s.email == email
    · have hcons : List.find? (fun x => x.email == email) (s :: rest) =
          List.find? (fun x => x.email == email) rest :=
        List.find?_cons_of_neg _ (by simp [hs])
      rw [hcons] at h2
      exact ih r h2
    · have hcons : List.find? (fun x => x.email == email) (s :: rest) = some s :=
        List.find?_cons_of_pos _ hs
      rw [hcons] at h2
      cases h2
      exact eq_of_beq hs

/-- C8: for every email whose normalized form already has a subscriber
record in a well-formed store, subscribe answers already-subscribed with
status 200, performs no store mutation and sends no welcome or admin mail;
normalization is applied before lookup, so `"  A@B.com "` and `"a@b.com"`
denote the same subscriber key. -/
theorem subscribe_duplicate_is_noop (cfg : Config) (nowStr : String)
    (bodyEmail bodyName : Option String) (store : List Subscriber) (r : Subscriber)
    (hw : WellFormedStore store)
    (hf : findOne store (normEmail (jsOrD bodyEmail "")) = some r) :
    (subscribeHandler cfg nowStr bodyEmail bodyName store).1.alreadySubscribed = true ∧
    (subscribeHandler cfg nowStr bodyEmail bodyName store).1.status = 200 ∧
    (subscribeHandler cfg nowStr bodyEmail bodyName store).2.1 = store ∧
    (subscribeHandler cfg nowStr bodyEmail bodyName store).2.2 = [] ∧
    normEmail "  A@B.com " = normEmail "a@b.com" := by
  have hf2 : List.find? (fun x => x.email == normEmail (jsOrD bodyEmail "")) store =
      some r := hf
  have hmem : r ∈ store := List.mem_of_find?_eq_some hf2
  have hre : r.email = normEmail (jsOrD bodyEmail "") :=
    findOne_eq_key (normEmail (jsOrD bodyEmail "")) store r hf
  have hv : validEmailFormat (normEmail (jsOrD bodyEmail "")) = true := by
    have h := hw r hmem
    rwa [hre] at h
  have hc : subscribeRejectCond (normEmail (jsOrD bodyEmail "")) = false := by
    rw [subscribeRejectCond_eq, hv]
    rfl
  refine ⟨?_, ?_, ?_, ?_, by decide⟩ <;> simp [subscribeHandler, hc, hf]

/-- Witness for C8: subscribing `"  A@B.com "` when `"a@b.com"` is stored is
a no-op answered as already-subscribed. -/
theorem subscribe_duplicate_is_noop_witness :
    WellFormedStore [⟨"a@b.com", "A"⟩] ∧
    findOne [⟨"a@b.com", "A"⟩] (normEmail (jsOrD (some "  A@B.com ") "")) =
      some ⟨"a@b.com", "A"⟩ ∧
    (subscribeHandler ⟨"f@x", "Ada", "adm@x", "s"⟩ "t" (some "  A@B.com ") none
        [⟨"a@b.com", "A"⟩]).1.alreadySubscribed = true ∧
    (subscribeHandler ⟨"f@x", "Ada", "adm@x", "s"⟩ "t" (some "  A@B.com ") none
        [⟨"a@b.com", "A"⟩]).2.1 = [⟨"a@b.com", "A"⟩] ∧
    (subscribeHandler ⟨"f@x", "Ada", "adm@x", "s"⟩ "t" (some "  A@B.com ") none
        [⟨"a@b.com", "A"⟩]).2.2 = [] := by
  have h := subscribe_duplicate_is_noop ⟨"f@x", "Ada", "adm@x", "s"⟩ "t"
    (some "  A@B.com ") none [⟨"a@b.com", "A"⟩] ⟨"a@b.com", "A"⟩
    (by decide) (by decide)
  exact ⟨by decide, by decide, h.1, h.2.2.1, h.2.2.2.1⟩

theorem deleteOne_not_found (email : String) :
    ∀ store : List Subscriber, findOne store email = none →
      deleteOne email store = (0, store) := by
  intro store
  induction store with
  | nil => intro _; rfl
  | cons s rest ih =>
    intro h
    have h2 : List.find? (fun x => x.email == email) (s :: rest) = none := h
    cases hs : s.email == email
    · have hcons : List.find? (fun x => x.email == email) (s :: rest) =
          List.find? (fun x => x.email == email) rest :=
        List.find?_cons_of_neg _ (by simp [hs])
      rw [hcons] at h2
      have hrec := ih h2
      simp [deleteOne, hs, hrec]
    · have hcons : List.find? (fun x => x.email == email) (s :: rest) = some s :=
        List.find?_cons_of_pos _ hs
      rw [hcons] at h2
      cases h2

theorem findOne_deleteOne_self (email : String) :
    ∀ store : List Subscriber, UniqueKeys store →
      findOne (deleteOne email store).2 email = none := by
  intro store
  induction store with
  | nil => intro _; rfl
  | cons s rest ih =>
    intro hu
    have hnod : s.email ∉ rest.map (fun x => x.email) ∧
        (rest.map (fun x => x.email)).Nodup := by
      have hh : (List.map (fun x => x.email) (s :: rest)).Nodup := hu
      rw [List.map_cons, List.nodup_cons] at hh
      exact hh
    cases hs : s.email == email
    · have hd : deleteOne email (s :: rest) =
          ((deleteOne email rest).1, s :: (deleteOne email rest).2) := by
        simp [deleteOne, hs]
      rw [hd]
      have hrec := ih hnod.2
      have hcons : List.find? (fun x => x.email == email)
            (s :: (deleteOne email rest).2) =
          List.find? (fun x => x.email == email) (deleteOne email rest).2 :=
        List.find?_cons_of_neg _ (by simp [hs])
      show List.find? (fun x => x.email == email) (s :: (deleteOne email rest).2) = none
      rw [hcons]
      exact hrec
    · have he : s.email = email := eq_of_beq hs
      have hd : deleteOne email (s :: rest) = (1, rest) := by
        simp [deleteOne, hs]
      rw [hd]
      show List.find? (fun x => x.email == email) rest = none
      rw [List.find?_eq_none]
      intro x hx hxe
      have hxe2 : x.email = email := by simpa using hxe
      have hin : email ∈ rest.map (fun x => x.email) :=
        List.mem_map.mpr ⟨x, hx, hxe2⟩
      rw [← he] at hin
      exact hnod.1 hin

/-- C9: unsubscribe never errors and is idempotent: for every email, when no
record exists the result is success-shaped with `removed = false` and the
store is unchanged; and repeating unsubscribe (with unique keys, as the
store's unique index guarantees) leaves the store as after the first call
and again returns success with `removed = false`. -/
theorem unsubscribe_idempotent_never_errors (bodyEmail : Option String)
    (store : List Subscriber) (hu : UniqueKeys store) :
    (unsubscribeHandler bodyEmail store).1.success = true ∧
    (findOne store (normEmail (jsOrD bodyEmail "")) = none →
      (unsubscribeHandler bodyEmail store).1.removed = false ∧
      (unsubscribeHandler bodyEmail store).2 = store) ∧
    unsubscribeHandler bodyEmail (unsubscribeHandler bodyEmail store).2 =
      (⟨true, "Email was not subscribed", false⟩,
        (unsubscribeHandler bodyEmail store).2) := by
  have hsnd : (unsubscribeHandler bodyEmail store).2 =
      (deleteOne (normEmail (jsOrD bodyEmail "")) store).2 := by
    by_cases h : (deleteOne (normEmail (jsOrD bodyEmail "")) store).1 = 0 <;>
      simp [unsubscribeHandler, h]
  refine ⟨?_, ?_, ?_⟩
  · by_cases h : (deleteOne (normEmail (jsOrD bodyEmail "")) store).1 = 0 <;>
      simp [unsubscribeHandler, h]
  · intro hn
    have hd := deleteOne_not_found (normEmail (jsOrD bodyEmail "")) store hn
    constructor <;> simp [unsubscribeHandler, hd]
  · have hnone : findOne (deleteOne (normEmail (jsOrD bodyEmail "")) store).2
        (normEmail (jsOrD bodyEmail "")) = none :=
      findOne_deleteOne_self (normEmail (jsOrD bodyEmail "")) store hu
    rw [hsnd]
    have hd := deleteOne_not_found (normEmail (jsOrD bodyEmail ""))
      (deleteOne (normEmail (jsOrD bodyEmail "")) store).2 hnone
    simp [unsubscribeHandler, hd]

/-- Witness for C9: unsubscribing an absent email from a one-element store
succeeds with `removed = false`, changes nothing, and repeating it returns
the same success-shaped result on the same store. -/
theorem unsubscribe_idempotent_never_errors_witness :
    UniqueKeys [(⟨"a@b.com", "A"⟩ : Subscriber)] ∧
    findOne [⟨"a@b.com", "A"⟩] (normEmail (jsOrD (some "c@d.com") "")) = none ∧
    (unsubscribeHandler (some "c@d.com") [⟨"a@b.com", "A"⟩]).1.success = true ∧
    (unsubscribeHandler (some "c@d.com") [⟨"a@b.com", "A"⟩]).1.removed = false ∧
    (unsubscribeHandler (some "c@d.com") [⟨"a@b.com", "A"⟩]).2 = [⟨"a@b.com", "A"⟩] ∧
    unsubscribeHandler (some "c@d.com")
        (unsubscribeHandler (some "c@d.com") [⟨"a@b.com", "A"⟩]).2 =
      (⟨true, "Email was not subscribed", false⟩,
        (unsubscribeHandler (some "c@d.com") [⟨"a@b.com", "A"⟩]).2) := by
  have h := unsubscribe_idempotent_never_errors (some "c@d.com")
    [⟨"a@b.com", "A"⟩] (by decide)
  have hn : findOne [(⟨"a@b.com", "A"⟩ : Subscriber)]
      (normEmail (jsOrD (some "c@d.com") "")) = none := by decide
  exact ⟨by decide, hn, h.1, (h.2.1 hn).1, (h.2.1 hn).2, h.2.2⟩

set_option maxRecDepth 1000000 in
/-- C6: for every subscriber of a publish fan-out, when `sendFull` coerces
true and `content="FULL"` the rendered notification body contains `"FULL"`
(part 1, fully general); when `sendFull` is falsy the rendered notification
does not depend on the text of `content` at all beyond its truthiness
(part 2, fully general — the body cannot contain the full content), and in
the concrete spec scenario with `excerpt="EXC"`, `content="FULL"` every
notification body contains `"EXC"` and does not contain `"FULL"`
(part 3). -/
theorem publish_notification_body_content :
    (∀ (cfg : Config) (req : PublishReq) (now year : Nat) (nowStr : String)
        (sendOk : String → Bool) (st : PubState) (m : Mail) (ok : Bool),
      Authorized cfg req → ValidFields req →
      sendFullCoerce req.sendFull = true → req.content = some "FULL" →
      Event.sendAttempt m ok ∈ (publishHandler cfg req now year nowStr sendOk st).2.2 →
      containsStr m.html "FULL" = true) ∧
    (∀ (cfg : Config) (req : PublishReq) (year : Nat) (s : Subscriber)
        (c2 : Option String),
      sendFullCoerce req.sendFull = false → truthy req.content = truthy c2 →
      notificationMail cfg req year s =
        notificationMail cfg
          ⟨req.headerSecret, req.bodySecret, req.title, req.excerpt, req.postUrl, c2,
            req.sendFull, req.file, req.protocol, req.host⟩ year s) ∧
    ((publishHandler ⟨"from@x", "Ada", "admin@x", "s3cret"⟩
        ⟨some "s3cret", none, some "Hello", some "EXC", some "https://x/1", some "FULL",
          none, none, "http", "h"⟩ 0 2026 "t" (fun _ => true)
        ⟨[⟨"a@x.com", "A"⟩, ⟨"b@x.com", "B"⟩], []⟩).2.2.all
      (fun e => match e with
        | Event.sendAttempt m _ =>
          containsStr m.html "EXC" && !(containsStr m.html "FULL")
        | _ => true)) = true := by
  refine ⟨?_, ?_, by decide⟩
  · intro cfg req now year nowStr sendOk st m ok hA hV hS hC hm
    rw [publishHandler_success cfg req now year nowStr sendOk st hA hV] at hm
    have hm2 : Event.sendAttempt m ok ∈
        (Event.postCreated (madePost req now) ::
          (fanOut sendOk (notificationMail cfg req year) st.subscribers).2.2 ++
            [Event.adminNotify
              (adminPublishMail cfg req nowStr
                (fanOut sendOk (notificationMail cfg req year) st.subscribers).1
                (fanOut sendOk (notificationMail cfg req year) st.subscribers).2.1
                st.subscribers.length)
              (sendOk cfg.adminEmail)]) := hm
    rw [fanOut_trace] at hm2
    simp only [List.mem_cons, List.mem_append, List.mem_map, List.mem_singleton,
      Event.sendAttempt.injEq, reduceCtorEq, or_false, false_or] at hm2
    rcases hm2 with ⟨s, hsmem, hmail, hok⟩ | hnil
    · have hb : emailBodyOf req = "FULL" := by
        rw [emailBodyOf, hS, if_pos rfl, hC]
        rfl
      rw [← hmail]
      show containsStr (publishHtml cfg year (req.title.getD "") (emailBodyOf req)
        (req.postUrl.getD "") req.sendFull req.excerpt req.content (attachmentUrlOf req)
        (attachmentNameOf req)
        (unsubscribeLink req.protocol req.host s.email)) "FULL" = true
      rw [publishHtml, hb]
      exact containsStr_of_append _ _ _
    · cases hnil
  · intro cfg req year s c2 hS hT
    have h1 : (req.sendFull == some "1") = false := by
      cases h : req.sendFull == some "1"
      · rfl
      · rw [sendFullCoerce, h] at hS
        simp at hS
    have h2 : (req.sendFull == some "true") = false := by
      cases h : req.sendFull == some "true"
      · rfl
      · rw [sendFullCoerce, h] at hS
        simp at hS
    simp [notificationMail, publishHtml, publishHtmlPost, emailBodyOf, teaserBlock,
      sendFullCoerce, attachmentUrlOf, attachmentNameOf, h1, h2, hT]

set_option maxRecDepth 1000000 in
/-- Witness for C6: with `sendFull="1"` and `content="FULL"` the concrete
notification mail produced by a publish call contains `"FULL"`; and with
`sendFull` absent, swapping `content="FULL"` for `content="ALT"` leaves the
rendered notification unchanged. -/
theorem publish_notification_body_content_witness :
    sendFullCoerce (some "1") = true ∧
    containsStr (notificationMail ⟨"from@x", "Ada", "admin@x", "s3cret"⟩
        ⟨some "s3cret", none, some "Hello", none, some "https://x/1", some "FULL",
          some "1", none, "http", "h"⟩ 2026 ⟨"a@x.com", "A"⟩).html "FULL" = true ∧
    notificationMail ⟨"from@x", "Ada", "admin@x", "s3cret"⟩
        ⟨some "s3cret", none, some "Hello", some "EXC", some "https://x/1", some "FULL",
          none, none, "http", "h"⟩ 2026 ⟨"a@x.com", "A"⟩ =
      notificationMail ⟨"from@x", "Ada", "admin@x", "s3cret"⟩
        ⟨some "s3cret", none, some "Hello", some "EXC", some "https://x/1", some "ALT",
          none, none, "http", "h"⟩ 2026 ⟨"a@x.com", "A"⟩ := by
  refine ⟨by decide, ?_, ?_⟩
  · have hmem : Event.sendAttempt (notificationMail ⟨"from@x", "Ada", "admin@x", "s3cret"⟩
        ⟨some "s3cret", none, some "Hello", none, some "https://x/1", some "FULL",
          some "1", none, "http", "h"⟩ 2026 ⟨"a@x.com", "A"⟩) true ∈
        (publishHandler ⟨"from@x", "Ada", "admin@x", "s3cret"⟩
          ⟨some "s3cret", none, some "Hello", none, some "https://x/1", some "FULL",
            some "1", none, "http", "h"⟩ 0 2026 "t" (fun _ => true)
          ⟨[⟨"a@x.com", "A"⟩], []⟩).2.2 := by
      rw [publishHandler_success _ _ _ _ _ _ _ (by decide) (by decide)]
      simp only [publishCore]
      rw [fanOut_trace]
      exact List.mem_cons_of_mem _ (List.mem_append_left _ (List.mem_cons_self _ _))
    exact publish_notification_body_content.1 ⟨"from@x", "Ada", "admin@x", "s3cret"⟩
      ⟨some "s3cret", none, some "Hello", none, some "https://x/1", some "FULL",
        some "1", none, "http", "h"⟩ 0 2026 "t" (fun _ => true)
      ⟨[⟨"a@x.com", "A"⟩], []⟩
      (notificationMail ⟨"from@x", "Ada", "admin@x", "s3cret"⟩
        ⟨some "s3cret", none, some "Hello", none, some "https://x/1", some "FULL",
          some "1", none, "http", "h"⟩ 2026 ⟨"a@x.com", "A"⟩) true
      (by decide) (by decide) (by decide) rfl hmem
  · exact publish_notification_body_content.2.1 ⟨"from@x", "Ada", "admin@x", "s3cret"⟩
      ⟨some "s3cret", none, some "Hello", some "EXC", some "https://x/1", some "FULL",
        none, none, "http", "h"⟩ 2026 ⟨"a@x.com", "A"⟩ (some "ALT")
      (by decide) (by decide)

end Newsletter
